import Mathlib

/-!
Verification of the offline-caching / push-notification service worker in
src/core/service-worker.js.

Modelling conventions (shallow embedding):
  - A JS string is a list of characters (`JStr`).
  - A cache store is an association list from request URL to response; the
    cache storage is an association list from store name to store.
  - The network is a function from URL to `Option Response`; `none` models a
    rejected fetch.
  - Each event handler becomes a pure function from its inputs to a result
    structure recording the response produced and the observable actions
    (network fetches, cache writes, posted messages, logs).
  - Host primitives used by the code (CacheStorage.match, Cache.addAll,
    caches.delete, clients.matchAll) are modelled after their specified
    behaviour in the web platform, as documented on each definition.
-/

/-- A JavaScript string, modelled as its sequence of characters. -/
abbrev JStr := List Char

/-- The parts of a fetch Response the service worker inspects: `status`,
`type` (here `rtype`: basic, cors, opaque, error, ...) and an opaque body
standing for the rest of the response. `clone()` produces an identical
value, so a clone is represented by the response itself. -/
structure Response where
  status : Nat
  rtype : JStr
  body : JStr
deriving DecidableEq

/-- A single cache store: request URL to response associations. -/
abbrev Cache := List (JStr × Response)

/-- The cache storage of the origin: named cache stores, in creation order. -/
abbrev CacheStorage := List (JStr × Cache)

/-- The network: `none` models a rejected fetch for that URL. -/
abbrev Network := JStr → Option Response

/-- Models JS `hay.includes(needle)`: the needle occurs contiguously
somewhere in the haystack. -/
def jsIncludes (needle : JStr) : JStr → Bool
  | [] => needle.isPrefixOf []
  | c :: t => needle.isPrefixOf (c :: t) || jsIncludes needle t

/-- Models JS `x || d` where `x` is a possibly-absent string: an absent or
empty (falsy) string yields the default `d`. -/
def jsOr (v : Option JStr) (d : JStr) : JStr :=
  match v with
  | some s => if s = [] then d else s
  | none => d

/-- Models JS `x || null` on a possibly-absent string: falsy collapses
to null (`none`). -/
def jsOrNull (v : Option JStr) : Option JStr :=
  match v with
  | some s => if s = [] then none else some s
  | none => none

/-- Line 6 of the source: the version-stamped cache name. -/
def CACHE_NAME : JStr := "daily-tracker-v2.1".data

/-- Lines 9-28 of the source: the fixed asset list precached at install. -/
def FILES_TO_CACHE : List JStr :=
  [ "/".data
  , "index.html".data
  , "core/core-styles.css".data
  , "core/core-scripts.js".data
  , "core/ui.js".data
  , "trackers/trackers-scripts.js".data
  , "trackers/trackers-styles.css".data
  , "workouts/workouts-scripts.js".data
  , "workouts/workouts-styles.css".data
  , "habits/habits-scripts.js".data
  , "habits/habits-styles.css".data
  , "reminders/reminders-scripts.js".data
  , "reminders/reminders-styles.css".data
  , "manifest.json".data
  , "icons/icon-192.png".data
  , "icons/icon-512.png".data
  , "https://fonts.googleapis.com/css2?family=Inter:wght@400;500;600;700&display=swap".data
  , "https://fonts.googleapis.com/icon?family=Material+Icons+Round".data
  ]

/-- Lookup of a request URL in one cache store (`Cache.prototype.match`):
the first entry for that URL, if any. -/
def cacheMatch (c : Cache) (url : JStr) : Option Response :=
  (c.find? (fun p => decide (p.1 = url))).map (fun p => p.2)

/-- Modelled host primitive `CacheStorage.prototype.match` (used as
`caches.match(request)` on line 75): the stores are consulted in storage
order and the first store containing the request supplies the response.
It is not restricted to the store named `CACHE_NAME`. -/
def cachesMatch : CacheStorage → JStr → Option Response
  | [], _ => none
  | (_, c) :: rest, url =>
    match cacheMatch c url with
    | some r => some r
    | none => cachesMatch rest url

/-- Whether a store holds an entry for the given URL. -/
def containsKey (c : Cache) (k : JStr) : Bool :=
  c.any (fun p => decide (p.1 = k))

/-- Modelled host primitive `Cache.prototype.put`: replaces any existing
entry for the URL with the new response. -/
def cachePut (c : Cache) (k : JStr) (r : Response) : Cache :=
  c.filter (fun p => !(decide (p.1 = k))) ++ [(k, r)]

/-- Modelled host primitive `caches.open(name)`: returns the storage with
the named store present, creating an empty one at the end if absent. -/
def cachesOpen (s : CacheStorage) (name : JStr) : CacheStorage :=
  if s.any (fun p => decide (p.1 = name)) then s else s ++ [(name, [])]

/-- The contents of the named store ([] if the store is absent). -/
def getCache (s : CacheStorage) (name : JStr) : Cache :=
  ((s.find? (fun p => decide (p.1 = name))).map (fun p => p.2)).getD []

/-- Replaces the contents of the named store. -/
def setCache (s : CacheStorage) (name : JStr) (c : Cache) : CacheStorage :=
  s.map (fun p => if p.1 = name then (name, c) else p)

/-- Fetch every URL of the list; a single failed fetch fails the whole
batch (`none`), otherwise all URL-response pairs are collected. -/
def fetchAll (network : Network) : List JStr → Option (List (JStr × Response))
  | [] => some []
  | u :: us =>
    match network u with
    | none => none
    | some r =>
      match fetchAll network us with
      | none => none
      | some es => some ((u, r) :: es)

/-- Outcome of a cache population round. -/
inductive PopulationResult where
  | ok (c : Cache)
  | rejected
deriving DecidableEq

/-- The response-validity gate of `Cache.prototype.addAll` (Service
Worker specification): a fetched response is acceptable only when its
type is not error, its status is an ok status (200 to 299), and its
status is not 206; any other resolved response makes addAll reject with
a TypeError. -/
def okForAddAll (r : Response) : Bool :=
  !(decide (r.rtype = "error".data)) &&
    decide (200 ≤ r.status) && decide (r.status ≤ 299) && !(decide (r.status = 206))

/-- Whether a fetch outcome is a resolved response passing the addAll
validity gate. -/
def respOk : Option Response → Bool
  | some r => okForAddAll r
  | none => false

/-- Modelled host primitive `Cache.prototype.addAll` (Service Worker
specification, Cache.addAll and Batch Cache Operations): every URL of the
list is fetched; if any fetch rejects, or any fetched response fails the
validity gate (`okForAddAll`: error type, non-ok status such as 404, or
status 206), the returned promise rejects and NO entry is added.
Otherwise the puts are committed as one atomic batch; there is no
per-URL partial success. -/
def addAll (network : Network) (c : Cache) (urls : List JStr) : PopulationResult :=
  match fetchAll network urls with
  | none => .rejected
  | some es =>
    if es.all (fun e => okForAddAll e.2) then
      .ok (es.foldl (fun acc e => cachePut acc e.1 e.2) c)
    else .rejected

/-- Result of the install handler (lines 31-48). -/
structure InstallResult where
  storage : CacheStorage
  skipWaitingCalled : Bool
  loggedError : Bool
  errorPropagated : Bool
deriving DecidableEq

/-- Lines 31-48: install opens the store named `CACHE_NAME`, runs
`addAll(FILES_TO_CACHE)` on it, and catches any failure, logging it;
the rejection never reaches `waitUntil`, so installation is not aborted. -/
def handleInstall (network : Network) (storage : CacheStorage) : InstallResult :=
  match addAll network (getCache (cachesOpen storage CACHE_NAME) CACHE_NAME)
      FILES_TO_CACHE with
  | .ok c => ⟨setCache (cachesOpen storage CACHE_NAME) CACHE_NAME c, true, false, false⟩
  | .rejected => ⟨cachesOpen storage CACHE_NAME, true, true, false⟩

/-- Result of the activate handler cleanup (lines 51-68): which store names
had a deletion attempted, and which names remain afterwards. -/
structure ActivateResult where
  attempted : List JStr
  remaining : List JStr
  claimCalled : Bool
deriving DecidableEq

/-- Lines 55-64: for every existing store name, if it differs from
`CACHE_NAME` a deletion is attempted (each attempt an independent promise
under `Promise.all`). `delOk` tells whether a given attempted deletion
succeeds; a name remains when it is the current name or its deletion
failed. -/
def activateCleanup (keys : List JStr) (delOk : JStr → Bool) : ActivateResult :=
  ⟨ keys.filter (fun k => !(decide (k = CACHE_NAME)))
  , keys.filter (fun k => decide (k = CACHE_NAME) || !(delOk k))
  , true ⟩

/-- Result of the fetch handler (lines 71-108): whether `respondWith` was
called, the response produced (none also covers the catch branch, which
produces undefined), whether a network fetch was issued, the cache writes
emitted (store name, key URL, stored response; line 96 does not await the
put, so writes are recorded as emitted actions), and whether the fetch
failure was logged. -/
structure FetchResult where
  intercepted : Bool
  response : Option Response
  networkFetched : Bool
  cacheWrites : List (JStr × JStr × Response)
  loggedFetchError : Bool
deriving DecidableEq

/-- Lines 71-108: the fetch handler. The guard on line 73 is
`event.request.url.startsWith(self.location.origin)`, i.e. a string prefix
test of the origin against the URL, not an origin comparison. On a hit the
cached response is returned; on a miss the network is consulted, and a
status-200 type-basic response is cloned into the `CACHE_NAME` store. -/
def handleFetch (origin url : JStr) (storage : CacheStorage)
    (network : Network) : FetchResult :=
  if origin.isPrefixOf url then
    match cachesMatch storage url with
    | some r => ⟨true, some r, false, [], false⟩
    | none =>
      match network url with
      | some r =>
        if r.status ≠ 200 ∨ r.rtype ≠ "basic".data then
          ⟨true, some r, true, [], false⟩
        else
          ⟨true, some r, true, [(CACHE_NAME, url, r)], false⟩
      | none => ⟨true, none, true, [], true⟩
  else ⟨false, none, false, [], false⟩

/-- A request URL is genuinely same-origin for `origin` exactly when its
serialization is the origin followed by a slash-initial path-and-rest
(the URL standard serializes a same-origin absolute URL this way). -/
def SameOriginUrl (origin url : JStr) : Prop :=
  ∃ rest, url = origin ++ '/' :: rest

/-- The optional fields of a parsed push payload (section 4.3 of the spec). -/
structure PushData where
  title : Option JStr
  body : Option JStr
  tag : Option JStr
  type : Option JStr
  reminderId : Option JStr
  action : Option JStr
deriving DecidableEq

/-- The data object attached to a reminder notification (lines 143-147). -/
structure ReminderData where
  type : JStr
  reminderId : Option JStr
  action : JStr
deriving DecidableEq

/-- The notification options assembled by the push handler. -/
structure NotificationOptions where
  body : JStr
  icon : JStr
  badge : JStr
  tag : JStr
  requireInteraction : Bool
  actions : List (JStr × JStr)
  data : Option ReminderData
deriving DecidableEq

/-- Line 114: the default notification title. -/
def defaultTitle : JStr := "Daily Tracker".data

/-- Lines 115-131: the default notification options; no data object is
attached by default. -/
def defaultOptions : NotificationOptions :=
  ⟨ "Time to check your health reminders!".data
  , "icons/icon-192.png".data
  , "icons/icon-192.png".data
  , "reminder-notification".data
  , false
  , [("open".data, "Open App".data), ("dismiss".data, "Dismiss".data)]
  , none ⟩

/-- The push payload as the handler observes it: no `event.data` at all,
payload present but `event.data.json()` throws (malformed JSON), or a
successfully parsed payload. -/
inductive PushPayload where
  | absent
  | malformed (raw : JStr)
  | parsed (d : PushData)
deriving DecidableEq

/-- Result of the push handler: the title and options passed to
`showNotification`, whether the parse error was logged, and whether the
handler threw (it never does: the parse is inside try/catch). -/
structure PushOutcome where
  title : JStr
  options : NotificationOptions
  loggedParseError : Bool
  threw : Bool
deriving DecidableEq

/-- Lines 111-158: the push handler. Defaults are overridden only by a
successfully parsed payload (`x || default`, so falsy fields keep the
default); a reminder-typed payload attaches the data object of lines
143-147; a parse failure is caught and logged and keeps every default. -/
def handlePush (payload : PushPayload) : PushOutcome :=
  match payload with
  | .absent => ⟨defaultTitle, defaultOptions, false, false⟩
  | .malformed _ => ⟨defaultTitle, defaultOptions, true, false⟩
  | .parsed d =>
    ⟨ jsOr d.title defaultTitle
    , ⟨ jsOr d.body defaultOptions.body
      , defaultOptions.icon
      , defaultOptions.badge
      , jsOr d.tag defaultOptions.tag
      , defaultOptions.requireInteraction
      , defaultOptions.actions
      , if d.type = some "reminder".data then
          some ⟨"reminder".data, jsOrNull d.reminderId, jsOr d.action "open".data⟩
        else none ⟩
    , false
    , false ⟩

/-- An open window client as the click handler sees it: its URL and
whether it exposes a focus method. -/
structure ClientW where
  url : JStr
  canFocus : Bool
deriving DecidableEq

/-- The message posted to a window on a reminder notification click
(lines 186-190). -/
structure PostedMsg where
  type : JStr
  action : JStr
  reminderId : Option JStr
deriving DecidableEq

/-- Result of the notificationclick handler: the notification is closed,
and at most one of focusing an existing window (with an optional posted
message) or opening a new window happens. -/
structure ClickOutcome where
  notificationClosed : Bool
  selected : Option ClientW
  posted : Option (ClientW × PostedMsg)
  focused : Option ClientW
  openedWindow : Option JStr
deriving DecidableEq

/-- Line 183: the loop condition for choosing a window:
`client.url.includes(scope)` (a substring test, not a scope-prefix test)
and `focus in client`. -/
def clientMatches (scope : JStr) (c : ClientW) : Bool :=
  jsIncludes scope c.url && c.canFocus

/-- The first client of the list satisfying the line 183 condition,
mirroring the for loop of lines 181-194 (clients.matchAll with
includeUncontrolled true supplies the full window list). -/
def findClient (scope : JStr) : List ClientW → Option ClientW
  | [] => none
  | c :: cs => if clientMatches scope c then some c else findClient scope cs

/-- Line 185: `notificationData.type === "reminder"`, where
notificationData is `event.notification.data || an empty object`. -/
def isReminderData (ndata : Option ReminderData) : Bool :=
  match ndata with
  | some d => decide (d.type = "reminder".data)
  | none => false

/-- Lines 197-203: the URL for a newly opened window. -/
def openUrl (ndata : Option ReminderData) : JStr :=
  match ndata with
  | some d =>
    if d.type = "reminder".data then
      match d.reminderId with
      | some id =>
        if id = [] then "/?open=reminders".data
        else "/?open=reminders&reminder=".data ++ id
      | none => "/?open=reminders".data
    else "/".data
  | none => "/".data

/-- Lines 161-208: the notificationclick handler. `action` is the clicked
action string (empty for a plain click). On dismiss nothing further
happens; otherwise the first window passing the line 183 test is selected,
receives the reminder message when the notification data is
reminder-typed, and is focused; with no such window a new one is opened. -/
def handleNotificationClick (action : JStr) (ndata : Option ReminderData)
    (scope : JStr) (clientList : List ClientW) : ClickOutcome :=
  if action = "dismiss".data then
    ⟨true, none, none, none, none⟩
  else
    match findClient scope clientList with
    | some c =>
      if isReminderData ndata then
        ⟨ true, some c
        , some (c, ⟨"notification-click".data, "open-reminders".data,
            ndata.bind (fun d => d.reminderId)⟩)
        , some c, none ⟩
      else ⟨true, some c, none, some c, none⟩
    | none => ⟨true, none, none, none, some (openUrl ndata)⟩

/-- A message object (the `event.data` of a message event) with its
possibly-absent `type` and opaque `data` fields. -/
structure Message where
  type : Option JStr
  data : Option JStr
deriving DecidableEq

/-- The branch of the message router that executes. -/
inductive MsgBranch where
  | scheduleReminder
  | cancelReminder
  | updateCache
  | unknown
deriving DecidableEq

/-- Outcome of the async work of the update-cache branch. -/
inductive UpdateCacheResult where
  | ok (s : CacheStorage)
  | rejected
deriving DecidableEq

/-- Lines 241-245: the update-cache work: open the `CACHE_NAME` store and
`addAll(FILES_TO_CACHE)` on it. There is NO catch here: a rejected addAll
is passed to `waitUntil` as a rejection (`.rejected`), and nothing is
logged. -/
def updateCacheWork (network : Network) (storage : CacheStorage) : UpdateCacheResult :=
  match addAll network (getCache (cachesOpen storage CACHE_NAME) CACHE_NAME)
      FILES_TO_CACHE with
  | .ok c => .ok (setCache (cachesOpen storage CACHE_NAME) CACHE_NAME c)
  | .rejected => .rejected

/-- Result of the message handler: whether the destructuring on line 226
threw, which switch branch ran, and the async work handed to `waitUntil`
by the update-cache branch. -/
structure MessageOutcome where
  threw : Bool
  branch : Option MsgBranch
  waitUntil : Option UpdateCacheResult
deriving DecidableEq

/-- Lines 228-250: the switch over the message type. An absent type (and
any unrecognized string) falls to the default log-and-ignore branch. -/
def dispatchMessage (m : Message) (network : Network) (storage : CacheStorage) :
    MsgBranch × Option UpdateCacheResult :=
  match m.type with
  | some t =>
    if t = "schedule-reminder".data then (.scheduleReminder, none)
    else if t = "cancel-reminder".data then (.cancelReminder, none)
    else if t = "update-cache".data then
      (.updateCache, some (updateCacheWork network storage))
    else (.unknown, none)
  | none => (.unknown, none)

/-- Lines 223-251: the message handler. Line 226 destructures
`event.data`; when `event.data` is null or undefined (`none` here) the
destructuring throws a TypeError before any dispatch, so no branch runs. -/
def handleMessage (eventData : Option Message) (network : Network)
    (storage : CacheStorage) : MessageOutcome :=
  match eventData with
  | none => ⟨true, none, none⟩
  | some m =>
    ⟨ false
    , some (dispatchMessage m network storage).1
    , (dispatchMessage m network storage).2 ⟩

/-! ## Helper lemmas -/

/-- A genuinely same-origin URL passes the startsWith guard of line 73. -/
theorem sameOrigin_startsWith {origin url : JStr} (h : SameOriginUrl origin url) :
    origin.isPrefixOf url = true := by
  obtain ⟨rest, rfl⟩ := h
  rw [ List.isPrefixOf_iff_prefix]
  exact ⟨'/' :: rest, rfl⟩

/-- Same-origin-ness is equivalent to a decidable test: the origin
followed by a slash is a prefix of the URL. -/
theorem sameOrigin_iff (origin url : JStr) :
    SameOriginUrl origin url ↔ (origin ++ ['/']).isPrefixOf url = true := by
  rw [ List.isPrefixOf_iff_prefix]
  constructor
  · rintro ⟨rest, rfl⟩
    exact ⟨rest, by simp⟩
  · rintro ⟨t, ht⟩
    exact ⟨t, by rw [← ht]; simp⟩

/-- The fetch handler on a request passing the guard with a cache hit. -/
theorem handleFetch_hit {origin url : JStr} {storage : CacheStorage}
    {network : Network} {r : Response} (h1 : origin.isPrefixOf url = true)
    (h2 : cachesMatch storage url = some r) :
    handleFetch origin url storage network = ⟨true, some r, false, [], false⟩ := by
  simp [handleFetch, h1, h2]

/-- A hit of CacheStorage.match comes from some store of the storage. -/
theorem cachesMatch_mem {storage : CacheStorage} {url : JStr} {r : Response}
    (h : cachesMatch storage url = some r) :
    ∃ nc, nc ∈ storage ∧ cacheMatch nc.2 url = some r := by
  induction storage with
  | nil => simp [cachesMatch] at h
  | cons p rest ih =>
    obtain ⟨name, c⟩ := p
    cases hm : cacheMatch c url with
    | some r2 =>
      have : some r2 = some r := by rw [← h]; simp [cachesMatch, hm]
      exact ⟨(name, c), List.mem_cons_self _ _, by rw [hm, Option.some_inj.mp this]⟩
    | none =>
      have h2 : cachesMatch rest url = some r := by rw [← h]; simp [cachesMatch, hm]
      obtain ⟨nc, hmem, hc⟩ := ih h2
      exact ⟨nc, List.mem_cons_of_mem _ hmem, hc⟩

/-- One failed fetch fails the whole batch fetch. -/
theorem fetchAll_none_of_mem {network : Network} {urls : List JStr} {u : JStr}
    (hu : u ∈ urls) (h : network u = none) : fetchAll network urls = none := by
  induction urls with
  | nil => cases hu
  | cons a as ih =>
    rcases List.mem_cons.mp hu with rfl | hmem
    · simp [fetchAll, h]
    · cases ha : network a with
      | none => simp [fetchAll, ha]
      | some r => simp [fetchAll, ha, ih hmem]

/-- When every fetch succeeds the batch fetch succeeds. -/
theorem fetchAll_isSome {network : Network} {urls : List JStr}
    (h : ∀ u ∈ urls, (network u).isSome) :
    ∃ es, fetchAll network urls = some es := by
  induction urls with
  | nil => exact ⟨[], rfl⟩
  | cons a as ih =>
    obtain ⟨r, hr⟩ := Option.isSome_iff_exists.mp (h a (List.mem_cons_self a as))
    obtain ⟨es, hes⟩ := ih (fun u hu => h u (List.mem_cons_of_mem a hu))
    exact ⟨(a, r) :: es, by simp [fetchAll, hr, hes]⟩

/-- Every URL of a successful batch fetch has an entry in the result. -/
theorem fetchAll_mem {network : Network} {urls : List JStr}
    {es : List (JStr × Response)} (h : fetchAll network urls = some es) :
    ∀ u ∈ urls, ∃ r, (u, r) ∈ es := by
  induction urls generalizing es with
  | nil => intro u hu; cases hu
  | cons a as ih =>
    intro u hu
    cases ha : network a with
    | none => simp [fetchAll, ha] at h
    | some r =>
      cases hrec : fetchAll network as with
      | none => simp [fetchAll, ha, hrec] at h
      | some es2 =>
        have hes0 : some ((a, r) :: es2) = some es := by
          rw [← h]; simp [fetchAll, ha, hrec]
        have hes : (a, r) :: es2 = es := Option.some_inj.mp hes0
        rcases List.mem_cons.mp hu with rfl | hmem
        · exact ⟨r, hes ▸ List.mem_cons_self _ _⟩
        · obtain ⟨r2, hr2⟩ := ih hrec u hmem
          exact ⟨r2, hes ▸ List.mem_cons_of_mem _ hr2⟩

/-- A put makes its key present. -/
theorem containsKey_cachePut_self (c : Cache) (k : JStr) (r : Response) :
    containsKey (cachePut c k r) k = true := by
  simp [containsKey, cachePut, List.any_append]

/-- A put never removes another key. -/
theorem containsKey_cachePut_mono {c : Cache} {k : JStr} (k2 : JStr) (r : Response)
    (h : containsKey c k = true) : containsKey (cachePut c k2 r) k = true := by
  by_cases hk : k = k2
  · subst hk
    exact containsKey_cachePut_self c k r
  · rcases List.any_eq_true.mp h with ⟨x, hx, hpx⟩
    have hx1 : x.1 = k := of_decide_eq_true hpx
    refine List.any_eq_true.mpr ⟨x, ?_, hpx⟩
    refine List.mem_append_left _ (List.mem_filter.mpr ⟨hx, ?_⟩)
    simp [hx1, hk]

/-- After folding puts over a list of entries, every key fed to a put (and
every key already present) is present. -/
theorem containsKey_foldl_put {es : List (JStr × Response)} :
    ∀ {c : Cache} {k : JStr}, ((∃ r, (k, r) ∈ es) ∨ containsKey c k = true) →
    containsKey (es.foldl (fun acc e => cachePut acc e.1 e.2) c) k = true := by
  induction es with
  | nil =>
    intro c k h
    rcases h with ⟨r, hr⟩ | hc
    · cases hr
    · simpa using hc
  | cons e rest ih =>
    intro c k h
    rw [List.foldl_cons]
    apply ih
    rcases h with ⟨r, hr⟩ | hc
    · rcases List.mem_cons.mp hr with heq | hmem
      · right
        rw [show e = (k, r) from heq.symm]
        exact containsKey_cachePut_self c k r
      · exact Or.inl ⟨r, hmem⟩
    · exact Or.inr (containsKey_cachePut_mono e.1 e.2 hc)

/-- Every entry of a successful batch fetch records the fetch of its own
URL: the URL is from the requested list and the network resolved it with
exactly that response. -/
theorem fetchAll_entries {network : Network} {urls : List JStr}
    {es : List (JStr × Response)} (h : fetchAll network urls = some es) :
    ∀ e ∈ es, e.1 ∈ urls ∧ network e.1 = some e.2 := by
  induction urls generalizing es with
  | nil =>
    have : some [] = some es := by rw [← h]; rfl
    rw [← Option.some_inj.mp this]
    intro e he
    cases he
  | cons a as ih =>
    cases ha : network a with
    | none => simp [fetchAll, ha] at h
    | some r =>
      cases hrec : fetchAll network as with
      | none => simp [fetchAll, ha, hrec] at h
      | some es2 =>
        have hes0 : some ((a, r) :: es2) = some es := by
          rw [← h]; simp [fetchAll, ha, hrec]
        rw [← Option.some_inj.mp hes0]
        intro e he
        rcases List.mem_cons.mp he with rfl | hmem
        · exact ⟨List.mem_cons_self _ _, ha⟩
        · obtain ⟨h1, h2⟩ := ih hrec e hmem
          exact ⟨List.mem_cons_of_mem _ h1, h2⟩

/-- A successful addAll leaves every URL of the list present in the store. -/
theorem addAll_ok_contains {network : Network} {c c2 : Cache} {urls : List JStr}
    (h : addAll network c urls = .ok c2) : ∀ u ∈ urls, containsKey c2 u = true := by
  intro u hu
  cases hf : fetchAll network urls with
  | none => rw [addAll, hf] at h; cases h
  | some es =>
    have he : addAll network c urls =
        if es.all (fun e => okForAddAll e.2) then
          .ok (es.foldl (fun acc e => cachePut acc e.1 e.2) c)
        else .rejected := by
      rw [addAll, hf]
    rw [he] at h
    obtain ⟨r, hr⟩ := fetchAll_mem hf u hu
    by_cases hall : es.all (fun e => okForAddAll e.2) = true
    · rw [if_pos hall] at h
      cases h
      exact containsKey_foldl_put (Or.inl ⟨r, hr⟩)
    · rw [if_neg hall] at h
      cases h

/-- An addAll over a list with one failing fetch rejects. -/
theorem addAll_rejected_of_mem {network : Network} {c : Cache} {urls : List JStr}
    {u : JStr} (hu : u ∈ urls) (h : network u = none) :
    addAll network c urls = .rejected := by
  rw [addAll, fetchAll_none_of_mem hu h]

/-- An addAll over a list every fetch of which resolves with a
gate-passing response succeeds. -/
theorem addAll_ok_of_forall {network : Network} (c : Cache) {urls : List JStr}
    (h : ∀ u ∈ urls, respOk (network u) = true) :
    ∃ c2, addAll network c urls = .ok c2 := by
  have hsome : ∀ u ∈ urls, (network u).isSome := by
    intro u hu
    have hru := h u hu
    cases hn : network u with
    | none => rw [hn] at hru; simp [respOk] at hru
    | some r => rfl
  obtain ⟨es, hes⟩ := fetchAll_isSome hsome
  have hall : es.all (fun e => okForAddAll e.2) = true := by
    refine List.all_eq_true.mpr ?_
    intro e he
    obtain ⟨h1, h2⟩ := fetchAll_entries hes e he
    have := h e.1 h1
    rw [h2] at this
    exact this
  refine ⟨es.foldl (fun acc e => cachePut acc e.1 e.2) c, ?_⟩
  have he : addAll network c urls =
      if es.all (fun e => okForAddAll e.2) then
        .ok (es.foldl (fun acc e => cachePut acc e.1 e.2) c)
      else .rejected := by
    rw [addAll, hes]
  rw [he, if_pos hall]

/-- An addAll over a list one fetch of which resolves with a response
failing the validity gate (for example a 404) rejects. -/
theorem addAll_rejected_of_bad {network : Network} {c : Cache} {urls : List JStr}
    {u : JStr} {r : Response} (hu : u ∈ urls) (hr : network u = some r)
    (hbad : okForAddAll r = false) : addAll network c urls = .rejected := by
  cases hf : fetchAll network urls with
  | none => rw [addAll, hf]
  | some es =>
    obtain ⟨r2, hmem⟩ := fetchAll_mem hf u hu
    have hnet2 := (fetchAll_entries hf (u, r2) hmem).2
    have hrr : r2 = r := Option.some_inj.mp (by rw [← hr, ← hnet2])
    have hall : ¬(es.all (fun e => okForAddAll e.2) = true) := by
      intro hall
      have := List.all_eq_true.mp hall (u, r2) hmem
      rw [hrr] at this
      exact absurd this (by rw [hbad]; exact Bool.false_ne_true)
    have he : addAll network c urls =
        if es.all (fun e => okForAddAll e.2) then
          .ok (es.foldl (fun acc e => cachePut acc e.1 e.2) c)
        else .rejected := by
      rw [addAll, hf]
    rw [he, if_neg hall]

/-- Opening a store makes a store of that name present. -/
theorem any_cachesOpen (s : CacheStorage) (name : JStr) :
    (cachesOpen s name).any (fun p => decide (p.1 = name)) = true := by
  rw [cachesOpen]
  by_cases h : s.any (fun p => decide (p.1 = name)) = true
  · rw [if_pos h]; exact h
  · rw [if_neg h]
    simp [List.any_append]

/-- Overwriting the contents of a present store is observed by getCache. -/
theorem getCache_setCache (s : CacheStorage) (name : JStr) (c : Cache)
    (h : s.any (fun p => decide (p.1 = name)) = true) :
    getCache (setCache s name c) name = c := by
  induction s with
  | nil => simp at h
  | cons p rest ih =>
    by_cases hp : p.1 = name
    · simp [getCache, setCache, hp]
    · have h2 : rest.any (fun q => decide (q.1 = name)) = true := by
        simp only [List.any_cons] at h
        rcases Bool.or_eq_true_iff.mp h with h1 | h1
        · exact absurd (of_decide_eq_true h1) hp
        · exact h1
      have ih2 := ih h2
      simp only [getCache, setCache, List.map_cons, if_neg hp] at ih2 ⊢
      rw [List.find?_cons_of_neg]
      · exact ih2
      · simp [hp]

/-- The selected client satisfies the line 183 condition. -/
theorem findClient_matches {scope : JStr} {l : List ClientW} {c : ClientW}
    (h : findClient scope l = some c) : clientMatches scope c = true := by
  induction l with
  | nil => cases h
  | cons a as ih =>
    rw [findClient] at h
    by_cases ha : clientMatches scope a = true
    · rw [if_pos ha] at h
      cases h
      exact ha
    · rw [if_neg ha] at h
      exact ih h

/-- The selected client is the first of the list passing the condition. -/
theorem findClient_first {scope : JStr} {l : List ClientW} {c : ClientW}
    (h : findClient scope l = some c) :
    ∃ l1 l2, l = l1 ++ c :: l2 ∧ ∀ x ∈ l1, clientMatches scope x = false := by
  induction l with
  | nil => cases h
  | cons a as ih =>
    rw [findClient] at h
    by_cases ha : clientMatches scope a = true
    · rw [if_pos ha] at h
      cases h
      exact ⟨[], as, rfl, by intro x hx; cases hx⟩
    · rw [if_neg ha] at h
      obtain ⟨l1, l2, hl, hall⟩ := ih h
      refine ⟨a :: l1, l2, by rw [hl, List.cons_append], ?_⟩
      intro x hx
      rcases List.mem_cons.mp hx with rfl | hxm
      · simpa using ha
      · exact hall x hxm

/-! ## Concrete instances used by witnesses and counterexamples -/

/-- A network on which exactly the last asset URL (the Material Icons font
stylesheet) is unreachable; every other fetch yields a 200 basic response. -/
def failFontNet : Network := fun u =>
  if u = "https://fonts.googleapis.com/icon?family=Material+Icons+Round".data
  then none else some ⟨200, "basic".data, "ok".data⟩

/-- A network on which every fetch yields a 200 basic response. -/
def allOkNet : Network := fun _ => some ⟨200, "basic".data, "ok".data⟩

/-- A network on which every fetch resolves, but always with a 404
response: every fetch succeeds as a fetch, yet every response fails the
addAll validity gate. -/
def notFoundNet : Network := fun _ => some ⟨404, "basic".data, "nf".data⟩

/-! ## Claims -/

/-- Claim C1: for every same-origin request with a cached entry, the fetch
interceptor intercepts and returns the cached response unchanged, issues
no network fetch, and emits no cache write. -/
theorem c1_hit_returns_cached_without_network (origin url : JStr)
    (storage : CacheStorage) (network : Network) (r : Response)
    (hso : SameOriginUrl origin url) (hhit : cachesMatch storage url = some r) :
    handleFetch origin url storage network = ⟨true, some r, false, [], false⟩ :=
  handleFetch_hit (sameOrigin_startsWith hso) hhit

/-- Witness for C1 at a concrete cached same-origin request. -/
theorem c1_witness :
    handleFetch "https://app.example".data "https://app.example/index.html".data
      [(CACHE_NAME, [("https://app.example/index.html".data,
        ⟨200, "basic".data, "shell".data⟩)])] (fun _ => none) =
      ⟨true, some ⟨200, "basic".data, "shell".data⟩, false, [], false⟩ :=
  c1_hit_returns_cached_without_network _ _ _ _ _
    ⟨"index.html".data, by decide⟩ (by decide)

/-- Claim C2: for a same-origin request with no cached entry and a
successful network fetch, a response with status exactly 200 and type
basic is returned to the caller AND a clone of it is written to the
CACHE_NAME store keyed by the request URL; any other response is returned
to the caller with no cache write. -/
theorem c2_miss_fetch_conditional_caching (origin url : JStr)
    (storage : CacheStorage) (network : Network) (r : Response)
    (hso : SameOriginUrl origin url) (hmiss : cachesMatch storage url = none)
    (hnet : network url = some r) :
    (r.status = 200 ∧ r.rtype = "basic".data →
      handleFetch origin url storage network =
        ⟨true, some r, true, [(CACHE_NAME, url, r)], false⟩) ∧
    (¬(r.status = 200 ∧ r.rtype = "basic".data) →
      handleFetch origin url storage network = ⟨true, some r, true, [], false⟩) := by
  have hp := sameOrigin_startsWith hso
  constructor
  · intro hv
    simp [handleFetch, hp, hmiss, hnet, hv.1, hv.2]
  · intro hv
    have hc : r.status ≠ 200 ∨ r.rtype ≠ "basic".data := not_and_or.mp hv
    simp [handleFetch, hp, hmiss, hnet, hc]

/-- Witness for C2: a 200 basic response is cached and returned; a 404
response is returned without a cache write. -/
theorem c2_witness :
    (handleFetch "https://app.example".data "https://app.example/app.js".data []
        (fun _ => some ⟨200, "basic".data, "js".data⟩) =
      ⟨true, some ⟨200, "basic".data, "js".data⟩, true,
        [(CACHE_NAME, "https://app.example/app.js".data,
          ⟨200, "basic".data, "js".data⟩)], false⟩) ∧
    (handleFetch "https://app.example".data "https://app.example/missing".data []
        (fun _ => some ⟨404, "basic".data, "nf".data⟩) =
      ⟨true, some ⟨404, "basic".data, "nf".data⟩, true, [], false⟩) :=
  ⟨(c2_miss_fetch_conditional_caching "https://app.example".data
      "https://app.example/app.js".data []
      (fun _ => some ⟨200, "basic".data, "js".data⟩) ⟨200, "basic".data, "js".data⟩
      ⟨"app.js".data, by decide⟩ rfl rfl).1 (by decide),
   (c2_miss_fetch_conditional_caching "https://app.example".data
      "https://app.example/missing".data []
      (fun _ => some ⟨404, "basic".data, "nf".data⟩) ⟨404, "basic".data, "nf".data⟩
      ⟨"missing".data, by decide⟩ rfl rfl).2 (by decide)⟩

/-- Claim C3 (code bug): line 73 guards interception with
`event.request.url.startsWith(self.location.origin)`, a string prefix
test, although the comment on line 72 says cross-origin requests are
skipped. A request to the DIFFERENT origin https://app.example.evil.test,
whose URL string happens to start with the own origin
https://app.example, is therefore intercepted: respondWith is called, the
cache storage is read and a network fetch is issued, contradicting the
claim that such a request is passed through untouched. -/
theorem c3_crossorigin_prefix_collision_intercepted :
    ¬ SameOriginUrl "https://app.example".data
      "https://app.example.evil.test/steal".data ∧
    handleFetch "https://app.example".data
      "https://app.example.evil.test/steal".data [] (fun _ => none) =
      ⟨true, none, true, [], true⟩ :=
  ⟨by rw [sameOrigin_iff]; decide, by decide⟩

/-- Counterexample for C4: with the current store absent and a stale store
holding the entry, the lookup returns the stale response: a store other
than the version-named one supplies the returned cached response. -/
theorem c4_counterexample :
    ("daily-tracker-v1".data ≠ CACHE_NAME) ∧
    handleFetch "https://app.example".data "https://app.example/app.js".data
      [("daily-tracker-v1".data,
        [("https://app.example/app.js".data, ⟨200, "basic".data, "old".data⟩)])]
      (fun _ => none) =
      ⟨true, some ⟨200, "basic".data, "old".data⟩, false, [], false⟩ :=
  ⟨by decide, by decide⟩

/-- Claim C4 (amended): the hit-vs-miss lookup is CacheStorage.match over
the whole cache storage: every named store is consulted in storage order,
and the returned cached response comes from some store of the storage,
not necessarily the current version-named one. -/
theorem c4_lookup_consults_all_stores (origin url : JStr)
    (storage : CacheStorage) (network : Network) (r : Response)
    (hso : SameOriginUrl origin url) (hhit : cachesMatch storage url = some r) :
    handleFetch origin url storage network = ⟨true, some r, false, [], false⟩ ∧
    ∃ nc, nc ∈ storage ∧ cacheMatch nc.2 url = some r :=
  ⟨handleFetch_hit (sameOrigin_startsWith hso) hhit, cachesMatch_mem hhit⟩

/-- Witness for C4 (amended) at a stale store supplying the response. -/
theorem c4_witness :
    (handleFetch "https://app.example".data "https://app.example/x".data
      [("daily-tracker-v2.0".data,
        [("https://app.example/x".data, ⟨200, "basic".data, "v20".data⟩)])]
      (fun _ => none) =
      ⟨true, some ⟨200, "basic".data, "v20".data⟩, false, [], false⟩) ∧
    ∃ nc, nc ∈ [("daily-tracker-v2.0".data,
        [("https://app.example/x".data, (⟨200, "basic".data, "v20".data⟩ : Response))])] ∧
      cacheMatch nc.2 "https://app.example/x".data =
        some ⟨200, "basic".data, "v20".data⟩ :=
  c4_lookup_consults_all_stores _ _ _ _ _ ⟨"x".data, by decide⟩ (by decide)

/-- Claim C5: when every attempted deletion succeeds, every store name
remaining after the activate cleanup equals the current version name; and
deletion is attempted on exactly the non-current names, a set determined
by the key list alone, each attempt an independent promise. -/
theorem c5_activate_cleanup_removes_noncurrent (keys : List JStr)
    (delOk : JStr → Bool)
    (h : ∀ k ∈ keys, k ≠ CACHE_NAME → delOk k = true) :
    (∀ k ∈ (activateCleanup keys delOk).remaining, k = CACHE_NAME) ∧
    (activateCleanup keys delOk).attempted =
      keys.filter (fun k => !(decide (k = CACHE_NAME))) := by
  refine ⟨?_, rfl⟩
  intro k hk
  simp only [activateCleanup] at hk
  obtain ⟨hkk, hp⟩ := List.mem_filter.mp hk
  by_cases hkc : k = CACHE_NAME
  · exact hkc
  · rw [h k hkk hkc] at hp
    simp [hkc] at hp

/-- Witness for C5 with one stale store and all deletions succeeding. -/
theorem c5_witness :
    (∀ k ∈ (activateCleanup [CACHE_NAME, "daily-tracker-v2.0".data]
        (fun _ => true)).remaining, k = CACHE_NAME) ∧
    (activateCleanup [CACHE_NAME, "daily-tracker-v2.0".data]
        (fun _ => true)).attempted =
      [CACHE_NAME, "daily-tracker-v2.0".data].filter
        (fun k => !(decide (k = CACHE_NAME))) :=
  c5_activate_cleanup_removes_noncurrent _ _ (by decide)

/-- Counterexample for C6: on `failFontNet` only the last asset URL fails
and every other asset fetch succeeds (in particular index.html), yet after
install the cache contains NO asset at all: the failed population is not a
best-effort partial result containing the assets that succeeded. The
failure is still logged and not propagated. -/
theorem c6_counterexample :
    failFontNet "index.html".data = some ⟨200, "basic".data, "ok".data⟩ ∧
    handleInstall failFontNet [] = ⟨[(CACHE_NAME, [])], true, true, false⟩ ∧
    containsKey (getCache (handleInstall failFontNet []).storage CACHE_NAME)
      "index.html".data = false :=
  ⟨by decide, by decide, by decide⟩

/-- Claim C6 (amended): any failure while precaching is caught and logged
and does not abort installation (nothing propagates to waitUntil); but the
population is the atomic addAll batch, so a failed batch adds nothing at
all: the storage is exactly what opening the store produced, with no
asset added, rather than a partial set of the assets that succeeded. -/
theorem c6_install_failure_caught_and_atomic (network : Network)
    (storage : CacheStorage)
    (h : ∃ u, u ∈ FILES_TO_CACHE ∧ network u = none) :
    handleInstall network storage =
      ⟨cachesOpen storage CACHE_NAME, true, true, false⟩ := by
  obtain ⟨u, hu, hn⟩ := h
  unfold handleInstall
  rw [addAll_rejected_of_mem hu hn]

/-- Witness for C6 (amended) on the one-asset-failing network. -/
theorem c6_witness :
    handleInstall failFontNet [] =
      ⟨cachesOpen [] CACHE_NAME, true, true, false⟩ :=
  c6_install_failure_caught_and_atomic failFontNet []
    ⟨"https://fonts.googleapis.com/icon?family=Material+Icons+Round".data,
      by decide, by decide⟩

/-- Counterexample for C7: on a network with one failing asset fetch, the
update-cache branch hands waitUntil a rejected population: the failure is
not caught by the handler. Install on the same network, by contrast,
catches and logs it and propagates nothing, so the semantics is NOT the
same best-effort caught-and-logged one as install. -/
theorem c7_counterexample :
    handleMessage (some ⟨some "update-cache".data, none⟩) failFontNet [] =
      ⟨false, some .updateCache, some .rejected⟩ ∧
    (handleInstall failFontNet []).loggedError = true ∧
    (handleInstall failFontNet []).errorPropagated = false :=
  ⟨by decide, by decide, by decide⟩

/-- Claim C7 (amended): a message of type update-cache re-opens the
current store and runs addAll over the full asset list: when every fetch
resolves with a response passing the addAll validity gate (ok status 200
to 299, not 206, type not error), the work handed to waitUntil resolves
and every asset list entry is present in the current store of the
resulting storage. Unlike install there is no catch: when some fetch
fails, or some fetch resolves with a gate-failing response (for example a
404), the whole atomic batch rejects, the rejection is handed to
waitUntil uncaught (nothing is logged), and no entry has been added. -/
theorem c7_update_cache_readds_all (network : Network) (storage : CacheStorage)
    (md : Option JStr) :
    ((∀ u ∈ FILES_TO_CACHE, respOk (network u) = true) →
      ∃ s2, handleMessage (some ⟨some "update-cache".data, md⟩) network storage =
          ⟨false, some .updateCache, some (.ok s2)⟩ ∧
        ∀ u ∈ FILES_TO_CACHE, containsKey (getCache s2 CACHE_NAME) u = true) ∧
    ((∃ u, u ∈ FILES_TO_CACHE ∧ network u = none) →
      handleMessage (some ⟨some "update-cache".data, md⟩) network storage =
        ⟨false, some .updateCache, some .rejected⟩) ∧
    ((∃ u r, u ∈ FILES_TO_CACHE ∧ network u = some r ∧ okForAddAll r = false) →
      handleMessage (some ⟨some "update-cache".data, md⟩) network storage =
        ⟨false, some .updateCache, some .rejected⟩) := by
  have hdm : handleMessage (some ⟨some "update-cache".data, md⟩) network storage =
      ⟨false, some .updateCache, some (updateCacheWork network storage)⟩ := rfl
  refine ⟨?_, ?_, ?_⟩
  · intro h
    obtain ⟨c2, hok⟩ := addAll_ok_of_forall
      (getCache (cachesOpen storage CACHE_NAME) CACHE_NAME) h
    refine ⟨setCache (cachesOpen storage CACHE_NAME) CACHE_NAME c2, ?_, ?_⟩
    · rw [hdm]
      have : updateCacheWork network storage =
          .ok (setCache (cachesOpen storage CACHE_NAME) CACHE_NAME c2) := by
        unfold updateCacheWork
        rw [hok]
      rw [this]
    · intro u hu
      rw [getCache_setCache _ _ _ (any_cachesOpen storage CACHE_NAME)]
      exact addAll_ok_contains hok u hu
  · intro h
    obtain ⟨u, hu, hn⟩ := h
    rw [hdm]
    have : updateCacheWork network storage = .rejected := by
      unfold updateCacheWork
      rw [addAll_rejected_of_mem hu hn]
    rw [this]
  · intro h
    obtain ⟨u, r, hu, hn, hbad⟩ := h
    rw [hdm]
    have : updateCacheWork network storage = .rejected := by
      unfold updateCacheWork
      rw [addAll_rejected_of_bad hu hn hbad]
    rw [this]

/-- Witness for C7 (amended): all entries re-added on an all-valid
network; uncaught rejection both on a network with one failing fetch and
on a network resolving every asset with a gate-failing 404. -/
theorem c7_witness :
    (∃ s2, handleMessage (some ⟨some "update-cache".data, none⟩) allOkNet [] =
        ⟨false, some .updateCache, some (.ok s2)⟩ ∧
      ∀ u ∈ FILES_TO_CACHE, containsKey (getCache s2 CACHE_NAME) u = true) ∧
    handleMessage (some ⟨some "update-cache".data, none⟩) failFontNet [] =
      ⟨false, some .updateCache, some .rejected⟩ ∧
    handleMessage (some ⟨some "update-cache".data, none⟩) notFoundNet [] =
      ⟨false, some .updateCache, some .rejected⟩ :=
  ⟨(c7_update_cache_readds_all allOkNet [] none).1 (by decide),
   (c7_update_cache_readds_all failFontNet [] none).2.1
     ⟨"https://fonts.googleapis.com/icon?family=Material+Icons+Round".data,
       by decide, by decide⟩,
   (c7_update_cache_readds_all notFoundNet [] none).2.2
     ⟨"index.html".data, ⟨404, "basic".data, "nf".data⟩,
       by decide, by decide, by decide⟩⟩

/-- Claim C8: a push payload that fails to parse as JSON has its error
logged, the failure is never propagated (the handler does not throw), and
the notification shown uses the default title and the default options
(default body and tag) with no attached data object. -/
theorem c8_malformed_payload_keeps_defaults (raw : JStr) :
    handlePush (.malformed raw) = ⟨defaultTitle, defaultOptions, true, false⟩ ∧
    defaultOptions.data = none :=
  ⟨rfl, rfl⟩

/-- Counterexample for C9: the window test on line 183 is substring
containment (client.url.includes(scope)), so a window whose URL does NOT
fall under the registration scope (the scope is not a prefix of its URL)
but merely mentions the scope in a query parameter is selected and
focused. -/
theorem c9_counterexample :
    ("https://app.example/".data).isPrefixOf
      "https://evil.test/?u=https://app.example/".data = false ∧
    handleNotificationClick [] none "https://app.example/".data
      [⟨"https://evil.test/?u=https://app.example/".data, true⟩] =
      ⟨true, some ⟨"https://evil.test/?u=https://app.example/".data, true⟩, none,
        some ⟨"https://evil.test/?u=https://app.example/".data, true⟩, none⟩ :=
  ⟨by decide, by decide⟩

/-- Claim C9 (amended): on a non-dismiss click the handler enumerates the
open windows (including uncontrolled ones) and selects the first whose
URL CONTAINS the registration scope as a substring and which exposes
focus; if the notification data is reminder-typed it posts the message
with type notification-click, action open-reminders and the reminderId of
the data to that window, and it focuses the window; every window
preceding the selected one fails the containment test, the selected
window passes it, and no new window is opened. -/
theorem c9_click_selects_first_scope_containing (action : JStr)
    (ndata : Option ReminderData) (scope : JStr) (clientList : List ClientW)
    (c : ClientW) (hact : action ≠ "dismiss".data)
    (hfind : findClient scope clientList = some c) :
    handleNotificationClick action ndata scope clientList =
      ⟨true, some c,
        if isReminderData ndata then
          some (c, ⟨"notification-click".data, "open-reminders".data,
            ndata.bind (fun d => d.reminderId)⟩)
        else none,
        some c, none⟩ ∧
    clientMatches scope c = true ∧
    ∃ l1 l2, clientList = l1 ++ c :: l2 ∧ ∀ x ∈ l1, clientMatches scope x = false := by
  refine ⟨?_, findClient_matches hfind, findClient_first hfind⟩
  by_cases hr : isReminderData ndata = true <;>
    simp [handleNotificationClick, hact, hfind, hr]

/-- Witness for C9 (amended) at a reminder notification and one in-scope
window. -/
theorem c9_witness :
    (handleNotificationClick "open".data
        (some ⟨"reminder".data, some "7".data, "open".data⟩)
        "https://app.example/".data
        [⟨"https://app.example/index.html".data, true⟩] =
      ⟨true, some ⟨"https://app.example/index.html".data, true⟩,
        if isReminderData (some ⟨"reminder".data, some "7".data, "open".data⟩) then
          some (⟨"https://app.example/index.html".data, true⟩,
            ⟨"notification-click".data, "open-reminders".data,
              (some (⟨"reminder".data, some "7".data, "open".data⟩ : ReminderData)).bind
                (fun d => d.reminderId)⟩)
        else none,
        some ⟨"https://app.example/index.html".data, true⟩, none⟩) ∧
    clientMatches "https://app.example/".data
      ⟨"https://app.example/index.html".data, true⟩ = true ∧
    ∃ l1 l2, [(⟨"https://app.example/index.html".data, true⟩ : ClientW)] =
        l1 ++ (⟨"https://app.example/index.html".data, true⟩ : ClientW) :: l2 ∧
      ∀ x ∈ l1, clientMatches "https://app.example/".data x = false :=
  c9_click_selects_first_scope_containing "open".data
    (some ⟨"reminder".data, some "7".data, "open".data⟩)
    "https://app.example/".data
    [⟨"https://app.example/index.html".data, true⟩]
    ⟨"https://app.example/index.html".data, true⟩ (by decide) (by decide)

/-- Claim C10: a message event whose data is null or undefined throws in
the line 226 destructuring before any dispatch: no router branch (not
even the unknown-type log-and-ignore one) runs and no async work is
registered; for any actual message object the handler never throws. -/
theorem c10_null_message_throws_before_dispatch (network : Network)
    (storage : CacheStorage) :
    handleMessage none network storage = ⟨true, none, none⟩ ∧
    ∀ m : Message, (handleMessage (some m) network storage).threw = false :=
  ⟨rfl, fun _ => rfl⟩
